import Mathlib

/-!
Shallow embedding of the rowdy authentication gateway (Rust), covering the
CORS negotiation engine (src/lib/src/cors.rs), the token builder
(src/lib/src/lib.rs) and the diesel-backed authenticator
(src/diesel/src/lib.rs).  Rust `HashSet` values are modelled as lists (the
code only tests membership, emptiness and subset-ness), machine integers as
`Nat`/`Int`, and fallible Rust functions return `Except`.
-/

/-- Model of `hyper::Url` (url crate 1.x) restricted to tuple origins, i.e.
URLs of special schemes such as http and https: the parsed components of an
absolute URL.  The origin of such a URL is the scheme+host+port triple;
the path and query components never take part in the origin. -/
structure Url where
  scheme : String
  host : String
  port : Nat
  path : String
  query : Option String
deriving DecidableEq, Repr

/-- Default port table of the url crate (`url` 1.x `default_port`). -/
def defaultPort (scheme : String) : Option Nat :=
  if scheme = "http" then some 80
  else if scheme = "https" then some 443
  else if scheme = "ws" then some 80
  else if scheme = "wss" then some 443
  else if scheme = "ftp" then some 21
  else if scheme = "gopher" then some 70
  else none

/-- Model of `url::Url::origin` for tuple origins: the scheme+host+port
triple of the URL. -/
def Url.origin (u : Url) : String × String × Nat :=
  (u.scheme, u.host, u.port)

/-- Model of `url::Origin::unicode_serialization` for tuple origins:
`scheme://host`, with `:port` appended when the port is not the default
port of the scheme.  No trailing slash and no path is ever emitted. -/
def Url.unicode_serialization (u : Url) : String :=
  if defaultPort u.scheme = some u.port then
    u.scheme ++ "://" ++ u.host
  else
    u.scheme ++ "://" ++ u.host ++ ":" ++ toString u.port

/-- Well-formedness of a URL for origin matching: the scheme and the host
contain no colon character (true of every scheme, and of every host other
than a bracketed IPv6 literal).  Under this condition the origin
serialization determines the scheme+host+port triple. -/
def Url.WellFormed (u : Url) : Prop :=
  (∀ c ∈ u.scheme.data, c ≠ ':') ∧ (∀ c ∈ u.host.data, c ≠ ':')

instance (u : Url) : Decidable u.WellFormed := by
  unfold Url.WellFormed; infer_instance

/-- Proof auxiliary: the decimal digit characters of a natural number, the
structural counterpart of `Nat.toDigits 10`. -/
def decRepr (n : Nat) : List Char :=
  if h : n / 10 = 0 then [Nat.digitChar (n % 10)]
  else decRepr (n / 10) ++ [Nat.digitChar (n % 10)]
decreasing_by
  exact Nat.div_lt_self (Nat.pos_of_ne_zero fun h0 => h (by simp [h0]))
    (by norm_num)

/-- Proof auxiliary: the numeric value of a list of decimal digit
characters. -/
def ofDigitChars (l : List Char) : Nat :=
  l.foldl (fun a c => 10 * a + (c.toNat - 48)) 0

/-- Proof auxiliary: the characters the origin serialization appends after
the host — nothing for a default port, otherwise a colon and the decimal
port. -/
def portTail (u : Url) : List Char :=
  if defaultPort u.scheme = some u.port then []
  else ':' :: (toString u.port).data

namespace cors

/-- Transcription of `cors::Error` (src/lib/src/cors.rs lines 23-33).  The
payloads of `BadOrigin` (a `hyper::error::ParseError`) and of
`BadRequestMethod` (a `rocket::Error`) are abstracted as strings. -/
inductive Error where
  | MissingOrigin
  | BadOrigin (parse_error : String)
  | MissingRequestMethod
  | BadRequestMethod (rocket_error : String)
  | MissingRequestHeaders
  | OriginNotAllowed
  | MethodNotAllowed
  | HeadersNotAllowed
deriving DecidableEq, Repr

/-- The rocket HTTP statuses the CORS module uses. -/
inductive Status where
  | Ok
  | BadRequest
  | Forbidden
deriving DecidableEq, Repr

/-- Numeric code of a rocket status. -/
def Status.code : Status → Nat
  | .Ok => 200
  | .BadRequest => 400
  | .Forbidden => 403

/-- Transcription of `impl Responder for cors::Error` (src/lib/src/cors.rs
lines 73-81): the HTTP status an error responds with. -/
def Error.respond : Error → Status
  | .OriginNotAllowed | .MethodNotAllowed | .HeadersNotAllowed => .Forbidden
  | _ => .BadRequest

/-- Transcription of `rocket::http::Method` (rocket v0.2). -/
inductive Method where
  | Get | Put | Post | Delete | Options | Head | Trace | Connect | Patch
deriving DecidableEq, Repr

/-- Transcription of `rocket::http::Method::as_str`. -/
def Method.as_str : Method → String
  | .Get => "GET"
  | .Put => "PUT"
  | .Post => "POST"
  | .Delete => "DELETE"
  | .Options => "OPTIONS"
  | .Head => "HEAD"
  | .Trace => "TRACE"
  | .Connect => "CONNECT"
  | .Patch => "PATCH"

/-- Transcription of `cors::AllowedOrigins` (src/lib/src/cors.rs lines
174-179): either every origin, or an explicit set of URLs. -/
inductive AllowedOrigins where
  | All
  | Some (origins : List Url)
deriving DecidableEq, Repr

/-- Transcription of `cors::Options` (src/lib/src/cors.rs lines 188-195). -/
structure Options where
  allowed_origins : AllowedOrigins
  allowed_methods : List Method
  allowed_headers : List String
deriving Repr

/-- Transcription of `cors::Response<R>` (src/lib/src/cors.rs lines
229-237). -/
structure Response (R : Type) where
  allow_origin : String
  allow_methods : List Method
  allow_headers : List String
  responder : R
  allow_credentials : Bool
  expose_headers : List String
  max_age : Option Nat
deriving Repr

/-- Transcription of `Response::origin` (src/lib/src/cors.rs lines
241-251): basic CORS response echoing the given origin string. -/
def Response.origin {R : Type} (responder : R) (origin : String) : Response R :=
  { allow_origin := origin
    allow_headers := []
    allow_methods := []
    responder := responder
    allow_credentials := false
    expose_headers := []
    max_age := none }

/-- Transcription of `Response::any` (src/lib/src/cors.rs lines 271-273):
CORS response allowing any origin, echoing the literal `*`. -/
def Response.any {R : Type} (responder : R) : Response R :=
  Response.origin responder "*"

/-- Transcription of `Response::allowed_origin` (src/lib/src/cors.rs lines
255-268): under a wildcard list accept with `*`; under an explicit list,
serialize the origin of the request URL and of every configured URL and
require exact membership, else fail with `OriginNotAllowed`. -/
def Response.allowed_origin {R : Type} (responder : R) (origin : Url)
    (allowed_origins : AllowedOrigins) : Except Error (Response R) :=
  match allowed_origins with
  | .All => .ok (Response.any responder)
  | .Some allowed =>
    let o := origin.unicode_serialization
    let allowedSer := allowed.map Url.unicode_serialization
    if allowedSer.contains o then .ok (Response.origin responder o)
    else .error .OriginNotAllowed

/-- Transcription of `Response::methods` (src/lib/src/cors.rs lines
298-301). -/
def Response.methods {R : Type} (self : Response R) (methods : List Method) :
    Response R :=
  { self with allow_methods := methods }

/-- Transcription of `Response::allowed_methods` (src/lib/src/cors.rs lines
305-314): the requested method must be one of the allowed methods, else
`MethodNotAllowed`. -/
def Response.allowed_methods {R : Type} (self : Response R) (method : Method)
    (allowed_methods : List Method) : Except Error (Response R) :=
  if ! allowed_methods.any (fun m => m == method) then
    .error .MethodNotAllowed
  else
    .ok (self.methods allowed_methods)

/-- Transcription of `Response::headers` (src/lib/src/cors.rs lines
318-321). -/
def Response.headers {R : Type} (self : Response R) (headers : List String) :
    Response R :=
  { self with allow_headers := headers }

/-- Transcription of `Response::allowed_headers` (src/lib/src/cors.rs lines
325-335): a non-empty requested header set that is not a subset of the
allowed headers fails with `HeadersNotAllowed`; an empty set always
passes. -/
def Response.allowed_headers {R : Type} (self : Response R)
    (headers : List String) (allowed_headers : List String) :
    Except Error (Response R) :=
  if ! headers.isEmpty && ! headers.all (fun h => allowed_headers.contains h) then
    .error .HeadersNotAllowed
  else
    .ok (self.headers allowed_headers)

/-- Transcription of `Options::preflight` (src/lib/src/cors.rs lines
199-219): origin check, then method check, then (only when a requested
header set was supplied) the headers check. -/
def Options.preflight (self : Options) (origin : Url) (method : Method)
    (headers : Option (List String)) : Except Error (Response Unit) :=
  match Response.allowed_origin () origin self.allowed_origins with
  | .error e => .error e
  | .ok response =>
    match response.allowed_methods method self.allowed_methods with
    | .error e => .error e
    | .ok response =>
      match headers with
      | some hs => response.allowed_headers hs self.allowed_headers
      | none => .ok response

/-- Transcription of `Options::respond` (src/lib/src/cors.rs lines
222-225): decorate an arbitrary responder, applying only the origin
check. -/
def Options.respond {R : Type} (self : Options) (responder : R)
    (origin : Url) : Except Error (Response R) :=
  Response.allowed_origin responder origin self.allowed_origins

/-- Transcription of `impl Responder for Response<R>` (src/lib/src/cors.rs
lines 338-374): the list of raw CORS headers the impl sets on the wrapped
response, in the order it sets them.  `Access-Control-Allow-Origin` and
`Access-Control-Allow-Credentials` are always set; the optional ones only
under the conditions the code tests.  Note the code never reads the
`allow_headers` field here. -/
def Response.corsHeaders {R : Type} (self : Response R) :
    List (String × String) :=
  [("Access-Control-Allow-Origin", self.allow_origin)]
  ++ [("Access-Control-Allow-Credentials",
        if self.allow_credentials then "true" else "false")]
  ++ (if self.expose_headers.isEmpty then []
      else [("Access-Control-Expose-Headers",
             String.intercalate ", " self.expose_headers)])
  ++ (if self.allow_methods.isEmpty then []
      else [("Access-Control-Allow-Methods",
             String.intercalate ", " (self.allow_methods.map Method.as_str))])
  ++ (match self.max_age with
      | some v => [("Access-Control-Max-Age", toString v)]
      | none => [])

end cors

/-- Minimal model of `serde_json::Value`, sufficient for the refresh token
payloads the diesel authenticator builds. -/
inductive JsonValue where
  | Null
  | Str (s : String)
  | Num (n : Nat)
  | Arr (xs : List JsonValue)
  | Object (fields : List (String × JsonValue))
deriving Repr

namespace token

/-- Transcription of `jwt::jws::Algorithm` (external jwt crate): the
signature algorithm recorded in a JWS header. -/
inductive Algorithm where
  | None | HS256 | HS384 | HS512 | RS256 | RS384 | RS512
deriving DecidableEq, Repr

/-- Transcription of `jwt::jws::Header`, restricted to the one field
`Configuration::make_header` sets (the rest stay at their defaults). -/
structure Header where
  algorithm : Algorithm
deriving DecidableEq, Repr

/-- Transcription of `jwt::SingleOrMultipleStrings`. -/
inductive SingleOrMultipleStrings where
  | Single (s : String)
  | Multiple (xs : List String)
deriving DecidableEq, Repr

/-- Transcription of `jwt::RegisteredClaims`.  Timestamps (chrono
`DateTime<UTC>` wrapped as `jwt::Timestamp`) are modelled as integer
seconds since the epoch. -/
structure RegisteredClaims where
  issuer : Option String
  subject : Option String
  audience : Option SingleOrMultipleStrings
  issued_at : Option Int
  not_before : Option Int
  expiry : Option Int
  id : Option String
deriving DecidableEq, Repr

/-- Transcription of `jwt::ClaimsSet<T>`; the source field `private` is a
reserved word in Lean and is called `private_claims` here. -/
structure ClaimsSet (T : Type) where
  private_claims : T
  registered : RegisteredClaims
deriving Repr

/-- Transcription of a decoded `jwt::JWT` (`JWT::new_decoded` pairs a
header with a claims set). -/
structure JWT (T : Type) where
  header : Header
  claims_set : ClaimsSet T
deriving Repr

/-- Transcription of `token::Secret`, per the variants documented on the
`secret` field of `Configuration` (src/lib/src/lib.rs lines 211-235). -/
inductive Secret where
  | None
  | Str (secret : String)
  | RsaKeyPair (rsa_private : String) (rsa_public : String)
deriving DecidableEq, Repr

/-- Transcription of `token::Token<T>`, restricted to the fields
`Configuration::make_token` sets. -/
structure Token (T : Type) where
  token : JWT T
  expires_in : Nat
  issued_at : Int
  refresh_token : Option JsonValue
deriving Repr

end token

/-- Transcription of `Configuration` (src/lib/src/lib.rs lines 181-239).
`std::time::Duration` is modelled as a number of whole seconds, which is
how the configuration supplies it. -/
structure Configuration where
  issuer : String
  allowed_origins : cors.AllowedOrigins
  audience : Option token.SingleOrMultipleStrings
  signature_algorithm : Option token.Algorithm
  secret : token.Secret
  expiry_duration : Nat
deriving Repr

/-- The chrono maximum duration, `i64::MAX` milliseconds, in whole
seconds. -/
def chronoMaxSecs : Nat := 9223372036854775807 / 1000

/-- Model of `chrono::Duration::from_std` (chrono 0.3) on whole seconds: a
std duration converts exactly when it does not exceed the chrono maximum;
otherwise the conversion reports an out-of-range error. -/
def chrono_from_std (secs : Nat) : Except String Int :=
  if secs ≤ chronoMaxSecs then .ok (Int.ofNat secs)
  else .error "Source duration value is out of range for the target type"

/-- Transcription of `Configuration::make_uuid` (src/lib/src/lib.rs lines
246-248).  The uuid crate generator `Uuid::new_v5(&uuid::NAMESPACE_URL, s)`
(a SHA-1 based external primitive) is abstracted as the function parameter
`new_v5`; the code applies it to the issuer and to nothing else. -/
def Configuration.make_uuid {Uuid : Type} (config : Configuration)
    (new_v5 : String → Uuid) : Uuid :=
  new_v5 config.issuer

/-- Transcription of `Configuration::make_header` (src/lib/src/lib.rs lines
250-255). -/
def Configuration.make_header (config : Configuration) : token.Header :=
  { algorithm := config.signature_algorithm.getD token.Algorithm.None }

/-- Transcription of `Configuration::make_registered_claims`
(src/lib/src/lib.rs lines 257-270).  `UTC::now()` is modelled by the
explicit parameter `now`, and `Uuid::urn().to_string()` by the abstract
function parameter `urn`. -/
def Configuration.make_registered_claims {Uuid : Type}
    (config : Configuration) (new_v5 : String → Uuid) (urn : Uuid → String)
    (subject : String) (now : Int) : Except String token.RegisteredClaims :=
  match chrono_from_std config.expiry_duration with
  | .error e => .error e
  | .ok expiry_duration =>
    .ok { issuer := some config.issuer
          subject := some subject
          audience := config.audience
          issued_at := some now
          not_before := some now
          expiry := some (now + expiry_duration)
          id := some (urn (config.make_uuid new_v5)) }

/-- Transcription of `Configuration::make_token` (src/lib/src/lib.rs lines
272-291).  The code unwraps `issued_at`, which `make_registered_claims`
always sets; the unwrap is modelled with a default of 0. -/
def Configuration.make_token {Uuid T : Type} (config : Configuration)
    (new_v5 : String → Uuid) (urn : Uuid → String)
    (subject : String) (private_claims : T) (now : Int) :
    Except String (token.Token T) :=
  let header := config.make_header
  match config.make_registered_claims new_v5 urn subject now with
  | .error e => .error e
  | .ok registered_claims =>
    let issued_at := registered_claims.issued_at.getD 0
    .ok { token := { header := header
                     claims_set := { private_claims := private_claims
                                     registered := registered_claims } }
          expires_in := config.expiry_duration
          issued_at := issued_at
          refresh_token := none }

namespace rowdy

/-- Modelled from the spec: `rowdy::auth::AuthenticationResult` (declared
in the rowdy auth module, which is not among the provided sources) — the
authenticator output {subject, private claims, optional refresh payload}. -/
structure AuthenticationResult where
  subject : String
  private_claims : JsonValue
  refresh_payload : Option JsonValue
deriving Repr

/-- Modelled from the spec: the `rowdy::auth::Error` variants the diesel
backend maps into — the single undistinguished `AuthenticationFailure`,
plus a generic error carrying a message. -/
inductive AuthError where
  | AuthenticationFailure
  | GenericError (msg : String)
deriving Repr

/-- Modelled from the spec: the fragment of `rowdy::Error` the diesel
backend maps into. -/
inductive RowdyError where
  | Auth (e : AuthError)
deriving Repr

/-- Modelled from the spec: `rowdy::auth::Authorization<Basic>` wrapping
`hyper::header::Basic` — a username with an optional password. -/
structure Basic where
  username : String
  password : Option String
deriving DecidableEq, Repr

end rowdy

namespace diesel

/-- Transcription of `rowdy_diesel::Error` (src/diesel/src/lib.rs lines
84-97).  Payloads of the wrapped diesel library errors are abstracted as
strings. -/
inductive Error where
  | ConnectionError (e : String)
  | DieselError (e : String)
  | InitializationError
  | ConnectionTimeout
  | AuthenticationFailure
  | InvalidUnicodeInPath
deriving DecidableEq, Repr

/-- Transcription of `impl From<Error> for rowdy::Error`
(src/diesel/src/lib.rs lines 117-140). -/
def Error.into_rowdy : Error → rowdy.RowdyError
  | .ConnectionError e => .Auth (.GenericError e)
  | .DieselError e => .Auth (.GenericError e)
  | .ConnectionTimeout =>
      .Auth (.GenericError "Timed out connecting to the database")
  | .InitializationError =>
      .Auth (.GenericError "Error initializing a database connection pool")
  | .InvalidUnicodeInPath =>
      .Auth (.GenericError "Path contains invalid unicode characters")
  | .AuthenticationFailure => .Auth .AuthenticationFailure

/-- Transcription of `User` (src/diesel/src/lib.rs lines 143-148).
`Vec<u8>` is modelled as a list of byte values. -/
structure User where
  username : String
  hash : List Nat
  salt : List Nat
deriving DecidableEq, Repr

/-- Model of `serde_json::value::to_value` on a `User`: the JSON object
with the three serialized fields in declaration order. -/
def User.to_json (u : User) : JsonValue :=
  .Object [("username", .Str u.username),
           ("hash", .Arr (u.hash.map JsonValue.Num)),
           ("salt", .Arr (u.salt.map JsonValue.Num))]

/-- Transcription of `Authenticator::serialize_refresh_token_payload`
(src/diesel/src/lib.rs lines 195-200); serializing the plain `User` data
cannot fail, so the `map_err` arm is dead. -/
def serialize_refresh_token_payload (user : User) : Except Error JsonValue :=
  .ok (JsonValue.Object [("user", user.to_json)])

/-- Transcription of `Authenticator::build_authentication_result`
(src/diesel/src/lib.rs lines 215-233). -/
def build_authentication_result (user : User)
    (include_refresh_payload : Bool) :
    Except Error rowdy.AuthenticationResult :=
  match (if include_refresh_payload then
           (serialize_refresh_token_payload user).map some
         else .ok none : Except Error (Option JsonValue)) with
  | .error e => .error e
  | .ok refresh_payload =>
    .ok { subject := user.username
          private_claims := JsonValue.Object []
          refresh_payload := refresh_payload }

/-- Abstraction of the database environment a diesel `Authenticator` runs
against: the outcome of `get_pooled_connection` (src/diesel/src/lib.rs
lines 170-175), the outcome of the `search` query per username (lines
178-186), and `rowdy::auth::util::hash_password_digest` — modelled from
the spec: the salted argon2i digest, a deterministic function of password
and salt, kept abstract. -/
structure Backend where
  pool : Except Error Unit
  search : String → Except Error (List User)
  hash_password_digest : String → List Nat → List Nat

/-- Transcription of `Authenticator::verify` (src/diesel/src/lib.rs lines
239-268).  `none` models the panic of the `assert_eq!` on line 259 (the
database returning a user whose username differs from the searched one);
every non-panicking outcome is `some`.  The source guards with
`user.len() != 1` and then pops the single element; the ring primitive
`verify_slices_are_equal` succeeds exactly on equal byte strings, which is
the property used here (its execution-time profile is not representable in
this embedding). -/
def verify (b : Backend) (username password : String)
    (include_refresh_payload : Bool) :
    Option (Except Error rowdy.AuthenticationResult) :=
  match b.pool with
  | .error e => some (.error e)
  | .ok () =>
    match b.search username with
    | .error _ => some (.error .AuthenticationFailure)
    | .ok user =>
      if h : user.length = 1 then
        let u := user.getLast (by intro hnil; rw [hnil] at h; simp at h)
        if username ≠ u.username then none
        else if ! (b.hash_password_digest password u.salt == u.hash) then
          some (.error .AuthenticationFailure)
        else
          some (build_authentication_result u include_refresh_payload)
      else some (.error .AuthenticationFailure)

/-- Transcription of `Authenticator::authenticate` (src/diesel/src/lib.rs
lines 277-285): a missing Basic password is replaced by the empty string,
and a verify error is converted into `rowdy::Error`. -/
def authenticate (b : Backend) (authorization : rowdy.Basic)
    (include_refresh_payload : Bool) :
    Option (Except rowdy.RowdyError rowdy.AuthenticationResult) :=
  let username := authorization.username
  let password := authorization.password.getD ""
  match verify b username password include_refresh_payload with
  | none => none
  | some (.error e) => some (.error e.into_rowdy)
  | some (.ok r) => some (.ok r)

end diesel

/-!
## Proof development

Auxiliary lemmas, then one theorem per claim (witnesses and
counterexamples follow the theorem they serve).
-/

theorem toDigitsCore_eq_decRepr :
    ∀ (f n : Nat) (acc : List Char), n < f →
      Nat.toDigitsCore 10 f n acc = decRepr n ++ acc := by
  intro f
  induction f with
  | zero => intro n acc h; omega
  | succ f ih =>
    intro n acc h
    simp only [Nat.toDigitsCore]
    by_cases h0 : n / 10 = 0
    · rw [if_pos h0, decRepr, dif_pos h0]
      rfl
    · rw [if_neg h0]
      have hnpos : 0 < n := Nat.pos_of_ne_zero fun hz => h0 (by simp [hz])
      have hdiv : n / 10 < n := Nat.div_lt_self hnpos (by norm_num)
      have hlt : n / 10 < f := lt_of_lt_of_le hdiv (Nat.lt_succ_iff.mp h)
      have hd : decRepr n = decRepr (n / 10) ++ [Nat.digitChar (n % 10)] := by
        rw [decRepr]
        rw [dif_neg h0]
      rw [ih (n / 10) _ hlt, hd, List.append_assoc]
      rfl

theorem digitChar_sub_48 (d : Nat) (h : d < 10) :
    (Nat.digitChar d).toNat - 48 = d := by
  interval_cases d <;> rfl

theorem ofDigitChars_append_singleton (l : List Char) (c : Char) :
    ofDigitChars (l ++ [c]) = 10 * ofDigitChars l + (c.toNat - 48) := by
  simp [ofDigitChars, List.foldl_append]

theorem ofDigitChars_decRepr (n : Nat) : ofDigitChars (decRepr n) = n := by
  induction n using Nat.strong_induction_on with
  | _ n ih =>
    by_cases h0 : n / 10 = 0
    · have hn : n < 10 := by omega
      rw [decRepr, dif_pos h0]
      have : ofDigitChars [Nat.digitChar (n % 10)] =
          10 * 0 + ((Nat.digitChar (n % 10)).toNat - 48) := rfl
      rw [this, digitChar_sub_48 (n % 10) (Nat.mod_lt _ (by norm_num))]
      omega
    · have hnpos : 0 < n := Nat.pos_of_ne_zero fun hz => h0 (by simp [hz])
      have hdiv : n / 10 < n := Nat.div_lt_self hnpos (by norm_num)
      rw [decRepr, dif_neg h0, ofDigitChars_append_singleton, ih (n / 10) hdiv,
        digitChar_sub_48 (n % 10) (Nat.mod_lt _ (by norm_num))]
      omega

theorem repr_injective {m n : Nat} (h : Nat.repr m = Nat.repr n) : m = n := by
  have hm : Nat.repr m = (decRepr m).asString := by
    rw [Nat.repr, Nat.toDigits,
      toDigitsCore_eq_decRepr (m + 1) m [] (Nat.lt_succ_self m),
      List.append_nil]
  have hn : Nat.repr n = (decRepr n).asString := by
    rw [Nat.repr, Nat.toDigits,
      toDigitsCore_eq_decRepr (n + 1) n [] (Nat.lt_succ_self n),
      List.append_nil]
  rw [hm, hn] at h
  have hdata : decRepr m = decRepr n := by
    simpa [List.asString] using congrArg String.data h
  calc m = ofDigitChars (decRepr m) := (ofDigitChars_decRepr m).symm
    _ = ofDigitChars (decRepr n) := by rw [hdata]
    _ = n := ofDigitChars_decRepr n

theorem takeWhile_append_stop (p : Char → Bool) :
    ∀ (l t : List Char), (∀ c ∈ l, p c = true) →
      (t = [] ∨ ∃ c r, t = c :: r ∧ p c = false) →
      (l ++ t).takeWhile p = l := by
  intro l
  induction l with
  | nil =>
    intro t _ ht
    rcases ht with rfl | ⟨c, r, rfl, hc⟩
    · rfl
    · simp [List.takeWhile_cons, hc]
  | cons a l ih =>
    intro t h ht
    have ha : p a = true := h a (by simp)
    simp only [List.cons_append, List.takeWhile_cons, ha, if_true]
    rw [ih t (fun c hc => h c (by simp [hc])) ht]

theorem serialization_data (u : Url) :
    u.unicode_serialization.data =
      u.scheme.data ++ ':' :: '/' :: '/' :: (u.host.data ++ portTail u) := by
  have h1 : ("://" : String).data = [':', '/', '/'] := rfl
  have h2 : (":" : String).data = [':'] := rfl
  rw [Url.unicode_serialization, portTail]
  by_cases h : defaultPort u.scheme = some u.port
  · rw [if_pos h, if_pos h]
    simp [String.data_append, h1]
  · rw [if_neg h, if_neg h]
    simp [String.data_append, h1, h2]

theorem unicode_serialization_inj {u v : Url} (hu : u.WellFormed)
    (hv : v.WellFormed)
    (h : u.unicode_serialization = v.unicode_serialization) :
    u.origin = v.origin := by
  have hd := congrArg String.data h
  rw [serialization_data, serialization_data] at hd
  have hnotp : (':' != ':') = false := by decide
  have hallu : ∀ c ∈ u.scheme.data, (c != ':') = true := fun c hc => by
    simpa using hu.1 c hc
  have hallv : ∀ c ∈ v.scheme.data, (c != ':') = true := fun c hc => by
    simpa using hv.1 c hc
  have hs : u.scheme.data = v.scheme.data := by
    have e1 := takeWhile_append_stop (fun c => c != ':') u.scheme.data
      (':' :: '/' :: '/' :: (u.host.data ++ portTail u)) hallu
      (Or.inr ⟨':', _, rfl, hnotp⟩)
    have e2 := takeWhile_append_stop (fun c => c != ':') v.scheme.data
      (':' :: '/' :: '/' :: (v.host.data ++ portTail v)) hallv
      (Or.inr ⟨':', _, rfl, hnotp⟩)
    rw [← e1, ← e2, hd]
  have hscheme : u.scheme = v.scheme := String.ext hs
  rw [hs] at hd
  have hd1 := List.append_cancel_left hd
  injection hd1 with _ hd1
  injection hd1 with _ hd1
  injection hd1 with _ hd2
  have htail : ∀ w : Url,
      portTail w = [] ∨ ∃ c r, portTail w = c :: r ∧ (c != ':') = false := by
    intro w
    rw [portTail]
    by_cases hw : defaultPort w.scheme = some w.port
    · left; rw [if_pos hw]
    · right; exact ⟨':', _, by rw [if_neg hw], hnotp⟩
  have hhostu : ∀ c ∈ u.host.data, (c != ':') = true := fun c hc => by
    simpa using hu.2 c hc
  have hhostv : ∀ c ∈ v.host.data, (c != ':') = true := fun c hc => by
    simpa using hv.2 c hc
  have hh : u.host.data = v.host.data := by
    have e1 := takeWhile_append_stop (fun c => c != ':') u.host.data
      (portTail u) hhostu (htail u)
    have e2 := takeWhile_append_stop (fun c => c != ':') v.host.data
      (portTail v) hhostv (htail v)
    rw [← e1, ← e2, hd2]
  have hhost : u.host = v.host := String.ext hh
  rw [hh] at hd2
  have hport_tail : portTail u = portTail v := List.append_cancel_left hd2
  have hport : u.port = v.port := by
    rw [portTail, portTail] at hport_tail
    by_cases h1 : defaultPort u.scheme = some u.port <;>
      by_cases h2 : defaultPort v.scheme = some v.port
    · rw [hscheme] at h1
      rw [h1] at h2
      exact Option.some.inj h2
    · rw [if_pos h1, if_neg h2] at hport_tail
      exact absurd hport_tail (by simp)
    · rw [if_neg h1, if_pos h2] at hport_tail
      exact absurd hport_tail (by simp)
    · rw [if_neg h1, if_neg h2] at hport_tail
      injection hport_tail with _ hport_data
      exact repr_injective (String.ext hport_data)
  rw [Url.origin, Url.origin, hscheme, hhost, hport]

theorem ser_eq_of_origin_eq {u v : Url} (h : u.origin = v.origin) :
    u.unicode_serialization = v.unicode_serialization := by
  have hs : u.scheme = v.scheme := congrArg (fun t => t.1) h
  have hh : u.host = v.host := congrArg (fun t => t.2.1) h
  have hp : u.port = v.port := congrArg (fun t => t.2.2) h
  rw [Url.unicode_serialization, Url.unicode_serialization, hs, hh, hp]

theorem mem_ser_iff (o : Url) (entries : List Url) (hwf : o.WellFormed)
    (hwfs : ∀ e ∈ entries, e.WellFormed) :
    (entries.map Url.unicode_serialization).contains o.unicode_serialization
        = true ↔ ∃ e ∈ entries, e.origin = o.origin := by
  constructor
  · intro h
    have hmem : o.unicode_serialization ∈
        entries.map Url.unicode_serialization := List.elem_iff.mp h
    obtain ⟨e, he, heq⟩ := List.mem_map.mp hmem
    exact ⟨e, he, unicode_serialization_inj (hwfs e he) hwf heq⟩
  · rintro ⟨e, he, heq⟩
    exact List.elem_iff.mpr
      (List.mem_map.mpr ⟨e, he, ser_eq_of_origin_eq heq⟩)

theorem allowed_origin_all_eq {R : Type} (responder : R) (o : Url) :
    cors.Response.allowed_origin responder o .All =
      .ok (cors.Response.any responder) := rfl

theorem allowed_origin_some_eq {R : Type} (responder : R) (o : Url)
    (entries : List Url) :
    cors.Response.allowed_origin responder o (.Some entries) =
      (if (entries.map Url.unicode_serialization).contains
            o.unicode_serialization = true
       then .ok (cors.Response.origin responder o.unicode_serialization)
       else .error .OriginNotAllowed) := rfl

theorem allowed_methods_of_mem {R : Type} (self : cors.Response R)
    (method : cors.Method) (allowed : List cors.Method)
    (hm : method ∈ allowed) :
    self.allowed_methods method allowed = .ok (self.methods allowed) := by
  rw [cors.Response.allowed_methods]
  have hany : allowed.any (fun m => m == method) = true := by
    simp only [List.any_eq_true, beq_iff_eq]
    exact ⟨method, hm, rfl⟩
  rw [hany]
  rfl

theorem allowed_methods_of_not_mem {R : Type} (self : cors.Response R)
    (method : cors.Method) (allowed : List cors.Method)
    (hm : method ∉ allowed) :
    self.allowed_methods method allowed = .error .MethodNotAllowed := by
  rw [cors.Response.allowed_methods]
  have hany : allowed.any (fun m => m == method) = false := by
    rw [Bool.eq_false_iff]
    intro htrue
    obtain ⟨x, hx, he⟩ := List.any_eq_true.mp htrue
    exact hm ((beq_iff_eq.mp he) ▸ hx)
  rw [hany]
  rfl

theorem allowed_headers_pass {R : Type} (self : cors.Response R)
    (hs allowed : List String) (hpass : hs = [] ∨ ∀ x ∈ hs, x ∈ allowed) :
    self.allowed_headers hs allowed = .ok (self.headers allowed) := by
  rw [cors.Response.allowed_headers]
  have hcond : (! hs.isEmpty && ! hs.all (fun h => allowed.contains h))
      = false := by
    rcases hpass with rfl | hsub
    · rfl
    · have hall : hs.all (fun h => allowed.contains h) = true := by
        rw [List.all_eq_true]
        intro x hx
        exact List.elem_iff.mpr (hsub x hx)
      rw [hall]
      simp
  rw [hcond]
  rfl

theorem allowed_headers_fail {R : Type} (self : cors.Response R)
    (hs allowed : List String) (x : String) (hx : x ∈ hs)
    (hout : x ∉ allowed) :
    self.allowed_headers hs allowed = .error .HeadersNotAllowed := by
  rw [cors.Response.allowed_headers]
  have h1 : hs.isEmpty = false := by
    cases hs
    · cases hx
    · rfl
  have h2 : hs.all (fun h => allowed.contains h) = false := by
    rw [Bool.eq_false_iff]
    intro ht
    exact hout (List.elem_iff.mp (List.all_eq_true.mp ht x hx))
  rw [h1, h2]
  rfl

/-- Claim C7: the CORS error-to-status mapping sends OriginNotAllowed,
MethodNotAllowed and HeadersNotAllowed to 403 Forbidden, and every other
CORS error (MissingOrigin, BadOrigin, MissingRequestMethod,
BadRequestMethod, MissingRequestHeaders) to 400 Bad Request. -/
theorem C7_error_status_mapping :
    cors.Error.respond .OriginNotAllowed = .Forbidden ∧
    cors.Error.respond .MethodNotAllowed = .Forbidden ∧
    cors.Error.respond .HeadersNotAllowed = .Forbidden ∧
    cors.Error.respond .MissingOrigin = .BadRequest ∧
    (∀ s, cors.Error.respond (.BadOrigin s) = .BadRequest) ∧
    cors.Error.respond .MissingRequestMethod = .BadRequest ∧
    (∀ s, cors.Error.respond (.BadRequestMethod s) = .BadRequest) ∧
    cors.Error.respond .MissingRequestHeaders = .BadRequest ∧
    cors.Status.code .Forbidden = 403 ∧
    cors.Status.code .BadRequest = 400 :=
  ⟨rfl, rfl, rfl, rfl, fun _ => rfl, rfl, fun _ => rfl, rfl, rfl, rfl⟩

/-- Claim C2: under the wildcard allowed-origins variant, respond
(decorate) succeeds for every request origin and responder with
allow-origin the literal `*`, and preflight succeeds with allow-origin `*`
for every request origin whenever the method and requested-headers checks
pass. -/
theorem C2_wildcard_always_allows {R : Type} (opts : cors.Options)
    (hAll : opts.allowed_origins = .All) (responder : R) (origin : Url)
    (method : cors.Method) (headers : Option (List String))
    (hm : method ∈ opts.allowed_methods)
    (hh : ∀ hs, headers = some hs → hs = [] ∨ ∀ x ∈ hs, x ∈ opts.allowed_headers) :
    (∃ r, opts.respond responder origin = .ok r ∧ r.allow_origin = "*") ∧
    (∃ r, opts.preflight origin method headers = .ok r ∧
      r.allow_origin = "*") := by
  constructor
  · refine ⟨cors.Response.any responder, ?_, rfl⟩
    rw [cors.Options.respond, hAll, allowed_origin_all_eq]
  · have h0 : cors.Response.allowed_origin () origin opts.allowed_origins =
        .ok (cors.Response.any ()) := by
      rw [hAll, allowed_origin_all_eq]
    cases headers with
    | none =>
      refine ⟨(cors.Response.any ()).methods opts.allowed_methods, ?_, rfl⟩
      simp only [cors.Options.preflight, h0,
        allowed_methods_of_mem _ method _ hm]
    | some hs =>
      refine ⟨((cors.Response.any ()).methods opts.allowed_methods).headers
        opts.allowed_headers, ?_, rfl⟩
      simp only [cors.Options.preflight, h0,
        allowed_methods_of_mem _ method _ hm,
        allowed_headers_pass _ hs _ (hh hs rfl)]

/-- Witness for C2 at a concrete wildcard configuration. -/
theorem C2_wildcard_always_allows_witness :
    (∃ r, (cors.Options.mk .All [.Get] []).respond "payload"
        ⟨"https", "foo.bar", 443, "/x", none⟩ = .ok r ∧
      r.allow_origin = "*") ∧
    (∃ r, (cors.Options.mk .All [.Get] []).preflight
        ⟨"https", "foo.bar", 443, "/x", none⟩ .Get none = .ok r ∧
      r.allow_origin = "*") :=
  C2_wildcard_always_allows (cors.Options.mk .All [.Get] []) rfl "payload"
    ⟨"https", "foo.bar", 443, "/x", none⟩ .Get none (by decide)
    (fun hs h => nomatch h)

/-- Claim C1: with an explicit allowed-origins set, respond (decorate) and
preflight (here with a passing method check) succeed exactly when the
scheme+host+port triple of the request origin equals that of some
configured entry, and fail with OriginNotAllowed otherwise; the path and
query components of the request origin never influence the outcome, and
the configured entries enter only through their origin serialization,
which ignores their path and query as well. -/
theorem C1_explicit_origin_matching {R : Type} (opts : cors.Options)
    (entries : List Url) (hent : opts.allowed_origins = .Some entries)
    (responder : R) (origin : Url) (method : cors.Method)
    (hwf : origin.WellFormed) (hwfs : ∀ e ∈ entries, e.WellFormed)
    (hm : method ∈ opts.allowed_methods) :
    ((∃ e ∈ entries, e.origin = origin.origin) →
        (∃ r, opts.respond responder origin = .ok r) ∧
        (∃ r, opts.preflight origin method none = .ok r)) ∧
    ((¬ ∃ e ∈ entries, e.origin = origin.origin) →
        opts.respond responder origin = .error .OriginNotAllowed ∧
        opts.preflight origin method none = .error .OriginNotAllowed) ∧
    (∀ p q, opts.respond responder
        { origin with path := p, query := q } =
        opts.respond responder origin) := by
  refine ⟨?_, ?_, fun p q => rfl⟩
  · intro hmatch
    have hc := (mem_ser_iff origin entries hwf hwfs).mpr hmatch
    constructor
    · refine ⟨cors.Response.origin responder origin.unicode_serialization, ?_⟩
      rw [cors.Options.respond, hent, allowed_origin_some_eq, if_pos hc]
    · refine ⟨(cors.Response.origin ()
        origin.unicode_serialization).methods opts.allowed_methods, ?_⟩
      have h0 : cors.Response.allowed_origin () origin opts.allowed_origins =
          .ok (cors.Response.origin () origin.unicode_serialization) := by
        rw [hent, allowed_origin_some_eq, if_pos hc]
      simp only [cors.Options.preflight, h0,
        allowed_methods_of_mem _ method _ hm]
  · intro hmatch
    have hc : (entries.map Url.unicode_serialization).contains
        origin.unicode_serialization = false := by
      rw [Bool.eq_false_iff]
      intro ht
      exact hmatch ((mem_ser_iff origin entries hwf hwfs).mp ht)
    constructor
    · rw [cors.Options.respond, hent, allowed_origin_some_eq, hc]
      rfl
    · have h0 : cors.Response.allowed_origin () origin opts.allowed_origins =
          .error .OriginNotAllowed := by
        rw [hent, allowed_origin_some_eq, hc]
        rfl
      simp only [cors.Options.preflight, h0]

/-- Witness for C1: the configured entry `https://a.com/x` and the request
origin `https://a.com/y` share the origin triple, so respond and preflight
succeed; the path difference is immaterial. -/
theorem C1_explicit_origin_matching_witness :
    ((∃ e ∈ [Url.mk "https" "a.com" 443 "/x" none],
        e.origin = (Url.mk "https" "a.com" 443 "/y" none).origin) →
      (∃ r, (cors.Options.mk (.Some [Url.mk "https" "a.com" 443 "/x" none])
          [.Get] []).respond "payload"
          (Url.mk "https" "a.com" 443 "/y" none) = .ok r) ∧
      (∃ r, (cors.Options.mk (.Some [Url.mk "https" "a.com" 443 "/x" none])
          [.Get] []).preflight
          (Url.mk "https" "a.com" 443 "/y" none) .Get none = .ok r)) ∧
    ((¬ ∃ e ∈ [Url.mk "https" "a.com" 443 "/x" none],
        e.origin = (Url.mk "https" "a.com" 443 "/y" none).origin) →
      (cors.Options.mk (.Some [Url.mk "https" "a.com" 443 "/x" none])
          [.Get] []).respond "payload"
          (Url.mk "https" "a.com" 443 "/y" none) =
        .error .OriginNotAllowed ∧
      (cors.Options.mk (.Some [Url.mk "https" "a.com" 443 "/x" none])
          [.Get] []).preflight
          (Url.mk "https" "a.com" 443 "/y" none) .Get none =
        .error .OriginNotAllowed) ∧
    (∀ p q, (cors.Options.mk (.Some [Url.mk "https" "a.com" 443 "/x" none])
        [.Get] []).respond "payload"
        { Url.mk "https" "a.com" 443 "/y" none with path := p, query := q } =
      (cors.Options.mk (.Some [Url.mk "https" "a.com" 443 "/x" none])
        [.Get] []).respond "payload"
        (Url.mk "https" "a.com" 443 "/y" none)) :=
  C1_explicit_origin_matching
    (cors.Options.mk (.Some [Url.mk "https" "a.com" 443 "/x" none]) [.Get] [])
    [Url.mk "https" "a.com" 443 "/x" none] rfl "payload"
    (Url.mk "https" "a.com" 443 "/y" none) .Get (by decide) (by decide)
    (by decide)

/-- Claim C8 (counterexample): with allowed_origins {https://foo.bar} and
request Origin https://foo.bar/path, preflight succeeds but the echoed
allow-origin is "https://foo.bar" and in particular is not the
trailing-slash form "https://foo.bar/" the claim states. -/
theorem C8_counterexample_trailing_slash :
    ((cors.Options.mk (.Some [Url.mk "https" "foo.bar" 443 "/" none])
        [.Get] []).preflight (Url.mk "https" "foo.bar" 443 "/path" none)
        .Get none).map (fun r => r.allow_origin) = .ok "https://foo.bar" ∧
    ¬ ((cors.Options.mk (.Some [Url.mk "https" "foo.bar" 443 "/" none])
        [.Get] []).preflight (Url.mk "https" "foo.bar" 443 "/path" none)
        .Get none).map (fun r => r.allow_origin) = .ok "https://foo.bar/" := by
  constructor
  · rfl
  · intro h
    have heval : ((cors.Options.mk
        (.Some [Url.mk "https" "foo.bar" 443 "/" none])
        [.Get] []).preflight (Url.mk "https" "foo.bar" 443 "/path" none)
        .Get none).map (fun r => r.allow_origin) =
        (.ok "https://foo.bar" : Except cors.Error String) := rfl
    rw [heval] at h
    exact absurd (Except.ok.inj h) (by decide)

/-- Claim C8 (amended): with allowed_origins {https://foo.bar} and request
Origin https://foo.bar/path, preflight succeeds and the echoed
allow-origin is exactly "https://foo.bar" — origin-normalized, without
path and without a trailing slash. -/
theorem C8_amended_echoed_origin :
    ∃ r, (cors.Options.mk (.Some [Url.mk "https" "foo.bar" 443 "/" none])
        [.Get] []).preflight (Url.mk "https" "foo.bar" 443 "/path" none)
        .Get none = .ok r ∧ r.allow_origin = "https://foo.bar" :=
  ⟨(cors.Response.origin () "https://foo.bar").methods [.Get], rfl, rfl⟩

/-- Claim C4 (divergence): rendering the headers of a successful preflight
response whose allow_headers set is non-empty emits
Access-Control-Allow-Origin, Access-Control-Allow-Credentials (an explicit
"false") and Access-Control-Allow-Methods, but never any
Access-Control-Allow-Headers header. -/
theorem C4_allow_headers_never_emitted :
    ∃ r, (cors.Options.mk .All [.Get] ["Authorization"]).preflight
        (Url.mk "https" "foo.bar" 443 "/" none) .Get
        (some ["Authorization"]) = .ok r ∧
      r.allow_headers = ["Authorization"] ∧
      r.corsHeaders = [("Access-Control-Allow-Origin", "*"),
        ("Access-Control-Allow-Credentials", "false"),
        ("Access-Control-Allow-Methods", "GET")] ∧
      ¬ "Access-Control-Allow-Headers" ∈ r.corsHeaders.map Prod.fst :=
  ⟨((cors.Response.any ()).methods [.Get]).headers ["Authorization"],
    rfl, rfl, rfl, by decide⟩

/-- Claim C3: preflight success requires the requested method to be among
the allowed methods, failing with MethodNotAllowed otherwise; an absent or
empty requested-headers set never causes HeadersNotAllowed, while a
supplied requested-headers set containing a member outside the allowed
headers always fails with HeadersNotAllowed.  The origin check, which runs
first, is assumed to pass. -/
theorem C3_preflight_method_headers (opts : cors.Options) (origin : Url)
    (r0 : cors.Response Unit)
    (hO : cors.Response.allowed_origin () origin opts.allowed_origins =
      .ok r0)
    (method : cors.Method) :
    (method ∉ opts.allowed_methods →
       ∀ headers, opts.preflight origin method headers =
         .error .MethodNotAllowed) ∧
    (method ∈ opts.allowed_methods →
       (∃ r, opts.preflight origin method none = .ok r) ∧
       (∃ r, opts.preflight origin method (some []) = .ok r) ∧
       (∀ hs x, x ∈ hs → x ∉ opts.allowed_headers →
          opts.preflight origin method (some hs) =
            .error .HeadersNotAllowed)) := by
  constructor
  · intro hnm headers
    simp only [cors.Options.preflight, hO,
      allowed_methods_of_not_mem _ method _ hnm]
  · intro hm
    refine ⟨⟨r0.methods opts.allowed_methods, ?_⟩,
      ⟨(r0.methods opts.allowed_methods).headers opts.allowed_headers, ?_⟩,
      ?_⟩
    · simp only [cors.Options.preflight, hO,
        allowed_methods_of_mem _ method _ hm]
    · simp only [cors.Options.preflight, hO,
        allowed_methods_of_mem _ method _ hm,
        allowed_headers_pass _ [] _ (Or.inl rfl)]
    · intro hs x hx hout
      simp only [cors.Options.preflight, hO,
        allowed_methods_of_mem _ method _ hm,
        allowed_headers_fail _ hs _ x hx hout]

/-- Witness for C3 at a concrete configuration: allowed methods {GET},
allowed headers empty, wildcard origin. -/
theorem C3_preflight_method_headers_witness :
    ((cors.Method.Put ∉ [cors.Method.Put]) →
       ∀ headers, (cors.Options.mk .All [.Put] []).preflight
         (Url.mk "https" "foo.bar" 443 "/" none) .Put headers =
         .error .MethodNotAllowed) ∧
    (cors.Method.Put ∈ [cors.Method.Put] →
       (∃ r, (cors.Options.mk .All [.Put] []).preflight
         (Url.mk "https" "foo.bar" 443 "/" none) .Put none = .ok r) ∧
       (∃ r, (cors.Options.mk .All [.Put] []).preflight
         (Url.mk "https" "foo.bar" 443 "/" none) .Put (some []) = .ok r) ∧
       (∀ hs x, x ∈ hs → x ∉ ([] : List String) →
          (cors.Options.mk .All [.Put] []).preflight
            (Url.mk "https" "foo.bar" 443 "/" none) .Put (some hs) =
            .error .HeadersNotAllowed)) :=
  C3_preflight_method_headers (cors.Options.mk .All [.Put] [])
    (Url.mk "https" "foo.bar" 443 "/" none) (cors.Response.any ()) rfl .Put

/-- Claim C5: for every configuration and subject, make_token produces
registered claims with issuer the configured issuer, the given subject,
the configured audience, issued_at = not_before = the current instant,
expiry = issued_at plus the configured expiry duration (hence issued_at ≤
not_before ≤ expiry), and an id equal to the URN rendering of the
namespace UUID derived from the configured issuer alone — identical
across subjects, instants and private-claims payloads. -/
theorem C5_registered_claims {Uuid T : Type} (new_v5 : String → Uuid)
    (urn : Uuid → String) (config : Configuration) (subject : String)
    (private_claims : T) (now : Int)
    (hdur : config.expiry_duration ≤ chronoMaxSecs) :
    ∃ tok, config.make_token new_v5 urn subject private_claims now =
        .ok tok ∧
      tok.token.claims_set.registered.issuer = some config.issuer ∧
      tok.token.claims_set.registered.subject = some subject ∧
      tok.token.claims_set.registered.audience = config.audience ∧
      tok.token.claims_set.registered.issued_at = some now ∧
      tok.token.claims_set.registered.not_before = some now ∧
      tok.token.claims_set.registered.expiry =
        some (now + (config.expiry_duration : Int)) ∧
      now ≤ now + (config.expiry_duration : Int) ∧
      tok.token.claims_set.registered.id =
        some (urn (new_v5 config.issuer)) ∧
      tok.issued_at = now ∧
      tok.expires_in = config.expiry_duration ∧
      (∀ (subject2 : String) (pc2 : T) (now2 : Int),
        ∃ tok2, config.make_token new_v5 urn subject2 pc2 now2 = .ok tok2 ∧
          tok2.token.claims_set.registered.id =
            tok.token.claims_set.registered.id) := by
  have hstd : chrono_from_std config.expiry_duration =
      .ok (Int.ofNat config.expiry_duration) := by
    rw [chrono_from_std, if_pos hdur]
  have hrc : ∀ (s : String) (t : Int),
      config.make_registered_claims new_v5 urn s t =
        .ok { issuer := some config.issuer
              subject := some s
              audience := config.audience
              issued_at := some t
              not_before := some t
              expiry := some (t + Int.ofNat config.expiry_duration)
              id := some (urn (new_v5 config.issuer)) } := by
    intro s t
    rw [Configuration.make_registered_claims, hstd]
    rfl
  have htok : ∀ (s : String) (pc : T) (t : Int),
      config.make_token new_v5 urn s pc t =
        .ok { token := { header := config.make_header
                         claims_set :=
                           { private_claims := pc
                             registered :=
                               { issuer := some config.issuer
                                 subject := some s
                                 audience := config.audience
                                 issued_at := some t
                                 not_before := some t
                                 expiry :=
                                   some (t + Int.ofNat config.expiry_duration)
                                 id := some (urn (new_v5 config.issuer)) } } }
              expires_in := config.expiry_duration
              issued_at := t
              refresh_token := none } := by
    intro s pc t
    rw [Configuration.make_token, hrc]
    rfl
  refine ⟨_, htok subject private_claims now, rfl, rfl, rfl, rfl, rfl, rfl,
    by omega, rfl, rfl, rfl, ?_⟩
  intro subject2 pc2 now2
  exact ⟨_, htok subject2 pc2 now2, rfl⟩

/-- Witness for C5 at the concrete configuration of the spec scenario:
issuer https://acme.com, expiry 3600 seconds, subject alice. -/
theorem C5_registered_claims_witness :
    ∃ tok, (Configuration.mk "https://acme.com" .All none none .None
        3600).make_token (fun s => String.append "uuid-of-" s)
        (fun u => String.append "urn:uuid:" u) "alice" () 1000000 =
        .ok tok ∧
      tok.token.claims_set.registered.issuer = some "https://acme.com" ∧
      tok.token.claims_set.registered.subject = some "alice" ∧
      tok.token.claims_set.registered.audience = none ∧
      tok.token.claims_set.registered.issued_at = some 1000000 ∧
      tok.token.claims_set.registered.not_before = some 1000000 ∧
      tok.token.claims_set.registered.expiry = some (1000000 + (3600 : Int)) ∧
      (1000000 : Int) ≤ 1000000 + (3600 : Int) ∧
      tok.token.claims_set.registered.id =
        some (String.append "urn:uuid:"
          (String.append "uuid-of-" "https://acme.com")) ∧
      tok.issued_at = 1000000 ∧
      tok.expires_in = 3600 ∧
      (∀ (subject2 : String) (pc2 : Unit) (now2 : Int),
        ∃ tok2, (Configuration.mk "https://acme.com" .All none none .None
            3600).make_token (fun s => String.append "uuid-of-" s)
            (fun u => String.append "urn:uuid:" u) subject2 pc2 now2 =
            .ok tok2 ∧
          tok2.token.claims_set.registered.id =
            tok.token.claims_set.registered.id) :=
  C5_registered_claims (fun s => String.append "uuid-of-" s)
    (fun u => String.append "urn:uuid:" u)
    (Configuration.mk "https://acme.com" .All none none .None 3600)
    "alice" () 1000000 (by decide)

/-- Claim C6: every verification failure of the diesel authenticator — a
backend search error, an unknown username (no match), more than one match,
or a wrong password — yields the single undistinguished
AuthenticationFailure error value, and the caller-visible rowdy error it
converts to is the single AuthenticationFailure variant as well. -/
theorem C6_failures_undistinguished (b : diesel.Backend)
    (hpool : b.pool = .ok ()) (username password : String) (irp : Bool) :
    (∀ e, b.search username = .error e →
        diesel.verify b username password irp =
          some (.error .AuthenticationFailure)) ∧
    (∀ us, b.search username = .ok us → us.length ≠ 1 →
        diesel.verify b username password irp =
          some (.error .AuthenticationFailure)) ∧
    (∀ u, b.search username = .ok [u] → u.username = username →
        b.hash_password_digest password u.salt ≠ u.hash →
        diesel.verify b username password irp =
          some (.error .AuthenticationFailure)) ∧
    diesel.Error.AuthenticationFailure.into_rowdy =
      .Auth .AuthenticationFailure := by
  refine ⟨?_, ?_, ?_, rfl⟩
  · intro e he
    simp only [diesel.verify, hpool, he]
  · intro us hus hlen
    simp only [diesel.verify, hpool, hus]
    rw [dif_neg hlen]
  · intro u hu humatch hneq
    simp only [diesel.verify, hpool, hu]
    rw [dif_pos (show (([u] : List diesel.User)).length = 1 from rfl)]
    rw [if_neg (show ¬ username ≠ ([u].getLast (by simp)).username from
      fun hne => hne (by simpa using humatch.symm))]
    rw [show (b.hash_password_digest password
        ([u].getLast (by simp)).salt == ([u].getLast (by simp)).hash) = false
      from beq_eq_false_iff_ne.mpr (by simpa using hneq)]
    rfl

/-- Witness for C6 at a concrete backend whose search finds no user. -/
theorem C6_failures_undistinguished_witness :
    (∀ e, (diesel.Backend.mk (.ok ()) (fun _ => .ok [])
        (fun _ _ => [])).search "alice" = .error e →
        diesel.verify (diesel.Backend.mk (.ok ()) (fun _ => .ok [])
          (fun _ _ => [])) "alice" "pw" false =
          some (.error .AuthenticationFailure)) ∧
    (∀ us, (diesel.Backend.mk (.ok ()) (fun _ => .ok [])
        (fun _ _ => [])).search "alice" = .ok us → us.length ≠ 1 →
        diesel.verify (diesel.Backend.mk (.ok ()) (fun _ => .ok [])
          (fun _ _ => [])) "alice" "pw" false =
          some (.error .AuthenticationFailure)) ∧
    (∀ u, (diesel.Backend.mk (.ok ()) (fun _ => .ok [])
        (fun _ _ => [])).search "alice" = .ok [u] →
        u.username = "alice" →
        (diesel.Backend.mk (.ok ()) (fun _ => .ok [])
          (fun _ _ => [])).hash_password_digest "pw" u.salt ≠ u.hash →
        diesel.verify (diesel.Backend.mk (.ok ()) (fun _ => .ok [])
          (fun _ _ => [])) "alice" "pw" false =
          some (.error .AuthenticationFailure)) ∧
    diesel.Error.AuthenticationFailure.into_rowdy =
      .Auth .AuthenticationFailure :=
  C6_failures_undistinguished
    (diesel.Backend.mk (.ok ()) (fun _ => .ok []) (fun _ _ => []))
    rfl "alice" "pw" false

/-- Claim C10: a Basic authorization without a password authenticates with
the empty string as the password: given a unique matching user,
authenticate succeeds exactly when the digest of the empty string with the
stored salt equals the stored hash, and otherwise fails with the generic
AuthenticationFailure — never with a distinct missing-password error. -/
theorem C10_missing_password_empty_string (b : diesel.Backend)
    (hpool : b.pool = .ok ()) (auth : rowdy.Basic)
    (hpw : auth.password = none) (u : diesel.User)
    (hsearch : b.search auth.username = .ok [u])
    (huser : u.username = auth.username) (irp : Bool) :
    (b.hash_password_digest "" u.salt = u.hash →
       ∃ res, diesel.authenticate b auth irp = some (.ok res) ∧
         res.subject = u.username) ∧
    (b.hash_password_digest "" u.salt ≠ u.hash →
       diesel.authenticate b auth irp =
         some (.error (.Auth .AuthenticationFailure))) := by
  have hgl : ([u].getLast (by simp)) = u := by simp
  constructor
  · intro heq
    have hv : diesel.verify b auth.username "" irp =
        some (diesel.build_authentication_result u irp) := by
      simp only [diesel.verify, hpool, hsearch]
      rw [dif_pos (show (([u] : List diesel.User)).length = 1 from rfl)]
      rw [if_neg (show ¬ auth.username ≠ ([u].getLast (by simp)).username
        from fun hne => hne (by simpa using huser.symm))]
      rw [show (b.hash_password_digest ""
          ([u].getLast (by simp)).salt == ([u].getLast (by simp)).hash) = true
        from beq_iff_eq.mpr (by simpa using heq)]
      simp [hgl]
    have hb : ∃ res, diesel.build_authentication_result u irp = .ok res ∧
        res.subject = u.username := by
      cases irp
      · exact ⟨_, rfl, rfl⟩
      · exact ⟨_, rfl, rfl⟩
    obtain ⟨res, hres, hsub⟩ := hb
    refine ⟨res, ?_, hsub⟩
    simp only [diesel.authenticate, hpw, Option.getD_none, hv, hres]
  · intro hneq
    have hv : diesel.verify b auth.username "" irp =
        some (.error .AuthenticationFailure) := by
      simp only [diesel.verify, hpool, hsearch]
      rw [dif_pos (show (([u] : List diesel.User)).length = 1 from rfl)]
      rw [if_neg (show ¬ auth.username ≠ ([u].getLast (by simp)).username
        from fun hne => hne (by simpa using huser.symm))]
      rw [show (b.hash_password_digest ""
          ([u].getLast (by simp)).salt == ([u].getLast (by simp)).hash)
          = false
        from beq_eq_false_iff_ne.mpr (by simpa using hneq)]
      rfl
    simp only [diesel.authenticate, hpw, Option.getD_none, hv]
    rfl

/-- Witness for C10 at a concrete backend with the single user alice whose
stored hash is the digest of the empty password. -/
theorem C10_missing_password_empty_string_witness :
    ((diesel.Backend.mk (.ok ())
        (fun _ => .ok [diesel.User.mk "alice" [7] [3]])
        (fun _ _ => [7])).hash_password_digest ""
        (diesel.User.mk "alice" [7] [3]).salt =
          (diesel.User.mk "alice" [7] [3]).hash →
       ∃ res, diesel.authenticate
           (diesel.Backend.mk (.ok ())
             (fun _ => .ok [diesel.User.mk "alice" [7] [3]])
             (fun _ _ => [7]))
           (rowdy.Basic.mk "alice" none) false = some (.ok res) ∧
         res.subject = (diesel.User.mk "alice" [7] [3]).username) ∧
    ((diesel.Backend.mk (.ok ())
        (fun _ => .ok [diesel.User.mk "alice" [7] [3]])
        (fun _ _ => [7])).hash_password_digest ""
        (diesel.User.mk "alice" [7] [3]).salt ≠
          (diesel.User.mk "alice" [7] [3]).hash →
       diesel.authenticate
           (diesel.Backend.mk (.ok ())
             (fun _ => .ok [diesel.User.mk "alice" [7] [3]])
             (fun _ _ => [7]))
           (rowdy.Basic.mk "alice" none) false =
         some (.error (.Auth .AuthenticationFailure))) :=
  C10_missing_password_empty_string
    (diesel.Backend.mk (.ok ())
      (fun _ => .ok [diesel.User.mk "alice" [7] [3]]) (fun _ _ => [7]))
    rfl (rowdy.Basic.mk "alice" none) rfl (diesel.User.mk "alice" [7] [3])
    rfl rfl false
